import Mathlib

/-!
Verification of the user-routes core of the My-Sheet-Music backend
(`src/backend/routes/users.js`), against its natural-language specification.

The route handlers are embedded directly from `src/backend/routes/users.js`.
The model layer (`User`, the auth middleware, the token helper and the JSON
schemas) is not part of the sources provided, so those collaborators are
modelled from the specification, each marked `Modelled from the spec:`.
-/

namespace SheetMusic

/-- A library entry as it appears inside `user.works` in the route layer
(`GET /users/:username` doc comment, users.js lines 62-65): the per-user
annotations plus the lazily resolved `title`/`composer`, which are absent
(`none`) until catalog enrichment fills them in. -/
structure WorkEntry where
  id : Nat
  api_id : Option Nat
  owned : Bool
  played : Bool
  digital : Bool
  physical : Bool
  notes : String
  loanedout : Bool
  title : Option String
  composer : Option String
  deriving Repr, DecidableEq

/-- Modelled from the spec: the opaque output of the Credential Store's
`hash` (§4.1, "hashes and verifies passwords").  The salt component makes
two hashes of the same plaintext distinct values while both still verify
against the original plaintext, as §4.1 requires. -/
structure HashV where
  digestOf : String
  salt : Nat
  deriving Repr, DecidableEq

/-- Modelled from the spec: `hash(plaintext) -> opaque` (§4.1), with the
salt chosen by the caller's salt source. -/
def hashPassword (plaintext : String) (salt : Nat) : HashV :=
  ⟨plaintext, salt⟩

/-- Modelled from the spec: `verify(plaintext, opaque) -> bool` (§4.1);
true exactly when the plaintext matches the one hashed into the opaque
value, regardless of salt. -/
def verify (plaintext : String) (stored : HashV) : Bool :=
  plaintext == stored.digestOf

/-- A user record as held by the user directory.  `works` is `none` when the
record carries no library list at all (the route guards on `user.works`
being truthy before touching it). -/
structure UserRec where
  id : Nat
  username : String
  name : String
  email : String
  passwordHash : HashV
  isAdmin : Bool
  works : Option (List WorkEntry)
  deriving Repr, DecidableEq

/-- Error kinds surfaced by the routes.  `referenceError` models a JavaScript
`ReferenceError` escaping an expression (the file runs under `"use strict"`);
the others correspond to the spec's error taxonomy (§7). -/
inductive JsError where
  | badRequest (errs : List String)
  | unauthorized (msg : String)
  | forbidden
  | notFound
  | conflict
  | referenceError (ident : String)
  deriving Repr, DecidableEq

/-- Outcome of a route handler: a JSON response with a status code, or an
error forwarded to `next(err)`. -/
inductive HandlerResult (α : Type) where
  | json (status : Nat) (body : α)
  | nextErr (e : JsError)
  deriving Repr, DecidableEq

/-- One iteration of the enrichment loop in `GET /users/:username`
(users.js lines 77-85), embedded from the source:

```js
if (work.api_id !== undefined && work.api_id !== null) {
  const outsideWork = await axios.get(`${url}/work/detail/${api_id}.json`);
  work.title = outsideWork.work.title;
  work.composer = outsideWork.composer.complete_name;
}
```

The template literal reads the identifier `api_id`, which is declared
nowhere in the module (the loop variable is `work`); under `"use strict"`
evaluating it throws a `ReferenceError` before `axios.get` is ever invoked.
So an iteration whose guard holds throws, and an iteration whose guard
fails leaves the entry untouched.  The returned list records the external
catalog requests issued (always none: the throw precedes the request). -/
def enrichStep (work : WorkEntry) : Except JsError (WorkEntry × List Nat) :=
  if work.api_id ≠ none then
    .error (.referenceError "api_id")
  else
    .ok (work, [])

/-- The `for (let work of user.works)` loop of `GET /users/:username`
(users.js lines 77-85): iterations run in order and the first thrown error
aborts the loop (it propagates to the handler's single `try/catch`).
Returns the (possibly rewritten) entries together with the list of external
catalog requests issued so far. -/
def enrichLoop : List WorkEntry → Except JsError (List WorkEntry × List Nat)
  | [] => .ok ([], [])
  | w :: rest => do
    let (w', reqs) ← enrichStep w
    let (rest', reqs') ← enrichLoop rest
    .ok (w' :: rest', reqs ++ reqs')

/-- The body of the `GET /users/:username` handler (users.js lines 74-90),
given the record returned by `User.get`:

```js
const user = await User.get(req.params.username);
if (user.works && user.works.length > 1) {
  for (let work of user.works) { ... }
}
return res.json({ user });
```

An error thrown inside the loop is caught by the handler's `try/catch` and
forwarded to `next(err)`.  The second component is the list of external
catalog requests the handler performed. -/
def getUserHandler (user : UserRec) : HandlerResult UserRec × List Nat :=
  match user.works with
  | none => (.json 200 user, [])
  | some ws =>
    if ws.length > 1 then
      match enrichLoop ws with
      | .ok (ws', reqs) => (.json 200 { user with works := some ws' }, reqs)
      | .error e => (.nextErr e, [])
    else
      (.json 200 user, [])

/-- Modelled from the spec: the persisted store behind the User Directory and
Library Relation Manager (§3): the flat set of user records, the canonical
work records (by internal id), and the `LibraryEntry` relation as
(user id, work id) pairs.  `nextId`/`nextSalt` model the persistence layer's
id allocation and the Credential Store's fresh-salt source. -/
structure Store where
  users : List UserRec
  works : List Nat
  userLib : List (Nat × Nat)
  nextId : Nat
  nextSalt : Nat
  deriving Repr, DecidableEq

/-- Modelled from the spec: `User.authenticate(username, password)` as used
by the PATCH route (users.js line 115 expects a boolean).  Per §4.4 it
checks `input.password` against the stored hash via the Credential Store;
per §4.1 verification fails closed (absent user or absent password field
yields `false`, never a throw). -/
def authenticate (st : Store) (username : String) (password : Option String) : Bool :=
  match st.users.find? (fun u => u.username == username) with
  | some u =>
    match password with
    | some p => verify p u.passwordHash
    | none => false
  | none => false

/-- The fields a `PATCH /users/:username` body may carry (route doc comment,
users.js lines 94-98: `{ name, email }` plus the required `password`). -/
structure UpdateBody where
  name : Option String
  email : Option String
  password : Option String
  deriving Repr, DecidableEq

/-- Modelled from the spec: `User.update(username, input)` (§4.4) applies the
field changes `name`/`email` to the stored record; fails with `NotFound`
if the username does not exist.  (The password re-verification gate lives
in the route handler, which calls `User.authenticate` first.) -/
def updateUser (st : Store) (username : String) (body : UpdateBody) :
    Except JsError (UserRec × Store) :=
  match st.users.find? (fun u => u.username == username) with
  | none => .error .notFound
  | some u =>
    let u' := { u with
      name := body.name.getD u.name
      email := body.email.getD u.email }
    .ok (u', { st with
      users := st.users.map (fun v => if v.username == username then u' else v) })

/-- The fields of a `POST /users` body (route doc comment, users.js
lines 18-25: the new user may be an admin). -/
structure NewUserBody where
  username : String
  name : String
  email : String
  password : String
  isAdmin : Bool
  deriving Repr, DecidableEq

/-- Modelled from the spec: `User.register(input)` (§4.4) enforces
`username`/`email` uniqueness (failing with `Conflict`), hashes the password
via the Credential Store, and persists the new record.  As used by the route
(users.js line 38) it returns the created user; the route issues the token
itself. -/
def register (st : Store) (input : NewUserBody) : Except JsError (UserRec × Store) :=
  if st.users.any (fun u => u.username == input.username) then
    .error .conflict
  else if st.users.any (fun u => u.email == input.email) then
    .error .conflict
  else
    let u : UserRec :=
      { id := st.nextId
        username := input.username
        name := input.name
        email := input.email
        passwordHash := hashPassword input.password st.nextSalt
        isAdmin := input.isAdmin
        works := none }
    .ok (u, { st with
      users := st.users ++ [u]
      nextId := st.nextId + 1
      nextSalt := st.nextSalt + 1 })

/-- Modelled from the spec: the Token Service's signed claim of identity
(§4.2): a bundle of `{username, isAdmin}`; the signature mechanics are the
collaborator's and are abstracted away. -/
structure Token where
  username : String
  isAdmin : Bool
  deriving Repr, DecidableEq

/-- Modelled from the spec: `createToken(user)` (users.js line 39 /
spec §4.2 `issue`): embeds the user's `username` and `isAdmin` claims. -/
def createToken (u : UserRec) : Token :=
  ⟨u.username, u.isAdmin⟩

/-- Modelled from the spec: `addToUserLib` of the Library Relation Manager
(§4.5 `addToLibrary`): creates a `LibraryEntry` for (user, work) unless one
already exists; fails with `NotFound` if either the user or the work does
not exist.  For an already-present pair the spec leaves `Conflict` vs no-op
open (§9) and recommends `Conflict`; that policy is taken here.  A `none`
argument models a `NaN` path parameter, which matches no stored id. -/
def addToUserLib (st : Store) (id workId : Option Nat) : Except JsError Store :=
  match id, workId with
  | some i, some w =>
    if ¬ st.users.any (fun u => u.id == i) then .error .notFound
    else if ¬ st.works.any (fun v => v == w) then .error .notFound
    else if st.userLib.any (fun p => p == (i, w)) then .error .conflict
    else .ok { st with userLib := st.userLib ++ [(i, w)] }
  | _, _ => .error .notFound

/-- A call from a route handler into the model layer, recorded in order of
invocation, so that "this model operation was never attempted" is statable
about a handler run. -/
inductive ModelCall where
  | authenticate (username : String) (password : Option String)
  | update (username : String)
  | register
  | addToUserLib (id workId : Option Nat)
  | catalogGet (apiId : Nat)
  deriving Repr, DecidableEq

/-- The body of the `PATCH /users/:username` handler (users.js
lines 108-128), embedded from the source:

```js
const validator = jsonschema.validate(req.body, userUpdateSchema);
if (!validator.valid) { throw new BadRequestError(errs); }
const isValid = await User.authenticate(req.params.username, req.body.password);
if (isValid) {
  const user = await User.update(req.params.username, req.body);
  return res.json({ user });
}
throw new UnauthorizedError("Bad password");
```

The schema-validation library is a black-box collaborator (spec §1): it is
passed in as `schemaErrors`, the list of `validator.errors` stacks for the
body, where the empty list means `validator.valid`.  The result carries the
updated store and the trace of model calls made. -/
def patchUserHandler (schemaErrors : UpdateBody → List String) (st : Store)
    (username : String) (body : UpdateBody) :
    HandlerResult UserRec × Store × List ModelCall :=
  match schemaErrors body with
  | e :: es => (.nextErr (.badRequest (e :: es)), st, [])
  | [] =>
    let isValid := authenticate st username body.password
    if isValid then
      match updateUser st username body with
      | .ok (u, st') =>
        (.json 200 u, st', [.authenticate username body.password, .update username])
      | .error err =>
        (.nextErr err, st, [.authenticate username body.password, .update username])
    else
      (.nextErr (.unauthorized "Bad password"), st,
        [.authenticate username body.password])

/-- The body of the `POST /users` handler (users.js lines 31-43), embedded
from the source:

```js
const validator = jsonschema.validate(req.body, userNewSchema);
if (!validator.valid) { throw new BadRequestError(errs); }
const user = await User.register(req.body);
const token = createToken(user);
return res.status(201).json({ user, token });
```

As in `patchUserHandler`, the black-box schema validator is passed in as
the body's list of error stacks (empty means valid). -/
def postUserHandler (schemaErrors : NewUserBody → List String) (st : Store)
    (body : NewUserBody) :
    HandlerResult (UserRec × Token) × Store × List ModelCall :=
  match schemaErrors body with
  | e :: es => (.nextErr (.badRequest (e :: es)), st, [])
  | [] =>
    match register st body with
    | .ok (u, st') => (.json 201 (u, createToken u), st', [.register])
    | .error err => (.nextErr err, st, [.register])

/-- The response body `{ added: workId }` of the userLib route (users.js
line 162): `added` echoes the raw route parameter string. -/
structure AddedBody where
  added : String
  deriving Repr, DecidableEq

/-- JavaScript unary `+` applied to a route parameter (users.js line 161:
`+req.params.id`, `+req.params.workId`): numeric conversion of a nonempty
all-digit decimal parameter string, with `none` standing for `NaN` on a
non-numeric string. -/
def plusNum (s : String) : Option Nat :=
  if s.data ≠ [] ∧ s.data.all Char.isDigit then
    some (s.data.foldl (fun n c => n * 10 + (c.toNat - 48)) 0)
  else none

/-- The body of the `POST /users/:id/userLib/:workId` handler (users.js
lines 159-166), embedded from the source:

```js
await User.addToUserLib(+req.params.id, +req.params.workId);
return res.json({ added: req.params.workId });
```

A throw from `User.addToUserLib` is caught and forwarded to `next(err)`,
leaving the store as it was. -/
def userLibHandler (st : Store) (idParam workIdParam : String) :
    HandlerResult AddedBody × Store × List ModelCall :=
  match addToUserLib st (plusNum idParam) (plusNum workIdParam) with
  | .ok st' =>
    (.json 200 ⟨workIdParam⟩, st', [.addToUserLib (plusNum idParam) (plusNum workIdParam)])
  | .error err =>
    (.nextErr err, st, [.addToUserLib (plusNum idParam) (plusNum workIdParam)])

/-- The decoded claim `{username, isAdmin}` extracted from a presented token
(spec glossary, "Identity"). -/
structure Identity where
  username : String
  isAdmin : Bool
  deriving Repr, DecidableEq

/-- What an authorization middleware does with a request: pass it on to the
handler, or reject it with an error. -/
inductive AuthDecision where
  | allow
  | deny (e : JsError)
  deriving Repr, DecidableEq

/-- Modelled from the spec: the `ensureCorrectUserOrAdmin` middleware
(users.js line 8 imports it from `../middleware/auth`, whose source is not
in the provided tree).  Per §4.3 **SelfOrAdmin(routeUsername)**: allow if
`identity.isAdmin == true` OR `identity.username == routeUsername`, else
fail with `Forbidden`; absence of a decoded identity fails earlier with
`Unauthorized`. -/
def ensureCorrectUserOrAdmin (identity : Option Identity) (routeUsername : String) :
    AuthDecision :=
  match identity with
  | none => .deny (.unauthorized "Unauthorized")
  | some id =>
    if id.isAdmin || id.username == routeUsername then .allow
    else .deny .forbidden

/-- Modelled from the spec: the `ensureAdmin` middleware (users.js line 8).
Per §4.3 **AdminOnly**: allow if `identity.isAdmin == true`, else fail with
`Forbidden`; no decoded identity fails with `Unauthorized`. -/
def ensureAdmin (identity : Option Identity) : AuthDecision :=
  match identity with
  | none => .deny (.unauthorized "Unauthorized")
  | some id => if id.isAdmin then .allow else .deny .forbidden

/-! Concrete sample data used to evaluate the handlers at specific inputs. -/

/-- A library entry with a set external catalog id and unresolved
`title`/`composer`. -/
def sampleEntryApi : WorkEntry :=
  { id := 7, api_id := some 42, owned := true, played := false, digital := false,
    physical := true, notes := "", loanedout := false, title := none, composer := none }

/-- A library entry with no external catalog id. -/
def sampleEntryPlain : WorkEntry :=
  { id := 8, api_id := none, owned := false, played := true, digital := true,
    physical := false, notes := "solo", loanedout := false, title := none,
    composer := none }

/-- A user record with no library list. -/
def aliceBase : UserRec :=
  { id := 1, username := "alice", name := "Alice", email := "alice@example.com",
    passwordHash := hashPassword "secret" 0, isAdmin := false, works := none }

/-- Alice with a single-entry library whose one entry has a set catalog id. -/
def aliceSingle : UserRec :=
  { aliceBase with works := some [sampleEntryApi] }

/-- Alice with a two-entry library whose first entry has a set catalog id. -/
def alicePair : UserRec :=
  { aliceBase with works := some [sampleEntryApi, sampleEntryPlain] }

/-- A user with a single-entry library whose entry has no catalog id. -/
def bobSingle : UserRec :=
  { id := 2, username := "bob", name := "Bob", email := "bob@example.com",
    passwordHash := hashPassword "pw123" 1, isAdmin := false,
    works := some [sampleEntryPlain] }

/-- A store holding only Alice's record. -/
def patchStore : Store :=
  { users := [aliceBase], works := [], userLib := [], nextId := 2, nextSalt := 1 }

/-- A PATCH body carrying a wrong confirmation password. -/
def badPwBody : UpdateBody :=
  { name := some "Alicia", email := none, password := some "wrong" }

/-- The empty store. -/
def emptyStore : Store :=
  { users := [], works := [], userLib := [], nextId := 1, nextSalt := 0 }

/-- A well-formed new-user body for Bob. -/
def bobNew : NewUserBody :=
  { username := "bob", name := "Bob", email := "bob@example.com",
    password := "pw123", isAdmin := false }

/-- The record `register` produces for `bobNew` on the empty store. -/
def bobUser : UserRec :=
  { id := 1, username := "bob", name := "Bob", email := "bob@example.com",
    passwordHash := hashPassword "pw123" 0, isAdmin := false, works := none }

/-- The store after registering Bob on the empty store. -/
def storeWithBob : Store :=
  { users := [bobUser], works := [], userLib := [], nextId := 2, nextSalt := 1 }

/-- A second registration body reusing Bob's username with a fresh email. -/
def bobDup : NewUserBody :=
  { username := "bob", name := "Robert", email := "robert@example.com",
    password := "other", isAdmin := false }

/-- A store holding Alice and one canonical work record (id 42). -/
def libStore : Store :=
  { users := [aliceBase], works := [42], userLib := [], nextId := 2, nextSalt := 1 }

/-- `libStore` after adding work 42 to Alice's (user id 1) library. -/
def libStoreAfter : Store :=
  { libStore with userLib := [(1, 42)] }

/-! Claims. -/

/-- C1: the claim fails on the code.  For a user whose library holds exactly
one entry with a set external catalog id, the `GET /users/:username` handler
(users.js line 76: `user.works && user.works.length > 1`) skips the
enrichment loop entirely: it performs no catalog request and responds with
that entry's `title`/`composer` still absent, instead of resolving them as
the claim (and spec §9's stated intent) requires. -/
theorem C1_single_entry_not_enriched :
    getUserHandler aliceSingle = (.json 200 aliceSingle, []) ∧
    aliceSingle.works = some [sampleEntryApi] ∧
    sampleEntryApi.api_id = some 42 ∧
    sampleEntryApi.title = none ∧
    sampleEntryApi.composer = none := by
  decide

/-- C2: the claim fails on the code.  For a user with a two-entry library
whose first entry has a set catalog id, the first enrichment iteration
throws (the URL template on users.js line 80 reads the undeclared
identifier `api_id`, a strict-mode `ReferenceError`), the handler's single
`try/catch` forwards the error to `next(err)`, and the whole request fails:
no entry is returned at all, enriched or not.  Lookups are not independent
and a failure is fatal to the read. -/
theorem C2_failing_lookup_aborts_request :
    getUserHandler alicePair = (.nextErr (.referenceError "api_id"), []) := by
  decide

/-- C3: a PATCH body that passes the update schema (`schemaErrors body = []`)
but whose password does not verify against the stored hash makes the handler
respond `Unauthorized "Bad password"`, leaves the store unchanged (so
`name`/`email` are not mutated), and the call trace shows `User.update` was
never invoked. -/
theorem C3_bad_password_never_updates (schemaErrors : UpdateBody → List String)
    (st : Store) (username : String) (body : UpdateBody)
    (hvalid : schemaErrors body = [])
    (hauth : authenticate st username body.password = false) :
    patchUserHandler schemaErrors st username body =
      (.nextErr (.unauthorized "Bad password"), st,
        [.authenticate username body.password]) := by
  simp [patchUserHandler, hvalid, hauth]

/-- Witness for C3: Alice's stored hash is of "secret"; a body confirming
with "wrong" is rejected with `Unauthorized "Bad password"` and the store
is untouched. -/
theorem C3_bad_password_never_updates_witness :
    patchUserHandler (fun _ => []) patchStore "alice" badPwBody =
      (.nextErr (.unauthorized "Bad password"), patchStore,
        [.authenticate "alice" (some "wrong")]) :=
  C3_bad_password_never_updates (fun _ => []) patchStore "alice" badPwBody rfl
    (by decide)

/-- C4: registering a body whose username or email equals that of a user
already in the directory fails with `Conflict`, leaves the store unchanged
(so the first user's record is unchanged), and persists nothing. -/
theorem C4_duplicate_registration_conflict (schemaErrors : NewUserBody → List String)
    (st : Store) (body : NewUserBody) (u : UserRec)
    (hvalid : schemaErrors body = [])
    (hu : u ∈ st.users)
    (hdup : u.username = body.username ∨ u.email = body.email) :
    postUserHandler schemaErrors st body = (.nextErr .conflict, st, [.register]) := by
  have hreg : register st body = .error .conflict := by
    unfold register
    rcases hdup with h | h
    · have hx : st.users.any (fun v => v.username == body.username) = true :=
        List.any_eq_true.mpr ⟨u, hu, by simp [h]⟩
      simp [hx]
    · cases hx : st.users.any (fun v => v.username == body.username) with
      | true => simp [hx]
      | false =>
        have hy : st.users.any (fun v => v.email == body.email) = true :=
          List.any_eq_true.mpr ⟨u, hu, by simp [h]⟩
        simp [hx, hy]
  simp [postUserHandler, hvalid, hreg]

/-- Witness for C4: after Bob is registered, a second body with the same
username and a fresh email fails with `Conflict` and Bob's store is
unchanged. -/
theorem C4_duplicate_registration_conflict_witness :
    postUserHandler (fun _ => []) storeWithBob bobDup =
      (.nextErr .conflict, storeWithBob, [.register]) :=
  C4_duplicate_registration_conflict (fun _ => []) storeWithBob bobDup bobUser rfl
    (by decide) (Or.inl rfl)

/-- C5: under the SelfOrAdmin guard, a decoded identity with `isAdmin` false
and a username differing from the route username is denied with `Forbidden`,
while the same identity requesting its own username is allowed through to
the handler. -/
theorem C5_self_or_admin_policy (id : Identity) (routeUsername : String)
    (hadmin : id.isAdmin = false) (hdiff : id.username ≠ routeUsername) :
    ensureCorrectUserOrAdmin (some id) routeUsername = .deny .forbidden ∧
    ensureCorrectUserOrAdmin (some id) id.username = .allow := by
  constructor
  · simp [ensureCorrectUserOrAdmin, hadmin, hdiff]
  · simp [ensureCorrectUserOrAdmin, hadmin]

/-- Witness for C5: non-admin "carol" is denied on route "dave" and allowed
on route "carol". -/
theorem C5_self_or_admin_policy_witness :
    ensureCorrectUserOrAdmin (some ⟨"carol", false⟩) "dave" = .deny .forbidden ∧
    ensureCorrectUserOrAdmin (some ⟨"carol", false⟩) "carol" = .allow :=
  C5_self_or_admin_policy ⟨"carol", false⟩ "dave" rfl (by decide)

/-- C6: a PATCH body that fails the update schema (`schemaErrors body`
nonempty) makes the handler fail with `BadRequestError` carrying the
validator's error stacks (the spec's `ValidationError`, 400), with the store
unchanged and an empty call trace: neither `User.authenticate` nor
`User.update` is attempted. -/
theorem C6_invalid_body_rejected (schemaErrors : UpdateBody → List String)
    (st : Store) (username : String) (body : UpdateBody)
    (hinvalid : schemaErrors body ≠ []) :
    patchUserHandler schemaErrors st username body =
      (.nextErr (.badRequest (schemaErrors body)), st, []) := by
  unfold patchUserHandler
  cases h : schemaErrors body with
  | nil => exact absurd h hinvalid
  | cons e es => simp

/-- Witness for C6: a validator rejecting every body makes PATCH fail with
`BadRequestError ["bad shape"]` and an empty call trace. -/
theorem C6_invalid_body_rejected_witness :
    patchUserHandler (fun _ => ["bad shape"]) patchStore "alice" badPwBody =
      (.nextErr (.badRequest ["bad shape"]), patchStore, []) :=
  C6_invalid_body_rejected (fun _ => ["bad shape"]) patchStore "alice" badPwBody
    (by decide)

/-- C7: an admin identity passes the AdminOnly guard, and a POST /users body
that passes the new-user schema and registers successfully yields a 201
response whose body pairs the record produced by `register` with the token
`createToken` issues for that record. -/
theorem C7_admin_post_creates_user (identity : Identity)
    (schemaErrors : NewUserBody → List String) (st st' : Store)
    (body : NewUserBody) (u : UserRec)
    (hadmin : identity.isAdmin = true)
    (hvalid : schemaErrors body = [])
    (hreg : register st body = .ok (u, st')) :
    ensureAdmin (some identity) = .allow ∧
    postUserHandler schemaErrors st body =
      (.json 201 (u, createToken u), st', [.register]) := by
  constructor
  · simp [ensureAdmin, hadmin]
  · simp [postUserHandler, hvalid, hreg]

/-- Witness for C7: the admin "root" creates Bob on the empty store; the
response is 201 with Bob's record and Bob's token. -/
theorem C7_admin_post_creates_user_witness :
    ensureAdmin (some ⟨"root", true⟩) = .allow ∧
    postUserHandler (fun _ => []) emptyStore bobNew =
      (.json 201 (bobUser, createToken bobUser), storeWithBob, [.register]) :=
  C7_admin_post_creates_user ⟨"root", true⟩ (fun _ => []) emptyStore storeWithBob
    bobNew bobUser rfl rfl rfl

/-- C8: whenever `User.addToUserLib` succeeds on the numeric conversions of
the two path parameters, the userLib handler's trace shows exactly that call
with both parameters, and the response is 200 with `added` echoing the raw
`workId` route parameter. -/
theorem C8_userlib_add_success (st st' : Store) (idParam workIdParam : String)
    (hok : addToUserLib st (plusNum idParam) (plusNum workIdParam) = .ok st') :
    userLibHandler st idParam workIdParam =
      (.json 200 ⟨workIdParam⟩, st',
        [.addToUserLib (plusNum idParam) (plusNum workIdParam)]) := by
  simp [userLibHandler, hok]

/-- Witness for C8: adding work "42" for user "1" on `libStore` succeeds,
records the converted parameters, and echoes "42". -/
theorem C8_userlib_add_success_witness :
    userLibHandler libStore "1" "42" =
      (.json 200 ⟨"42"⟩, libStoreAfter,
        [.addToUserLib (plusNum "1") (plusNum "42")]) :=
  C8_userlib_add_success libStore libStoreAfter "1" "42" rfl

/-- C9: when the fetched record's `works` is absent, empty, or a single
entry, the GET handler performs no external catalog request (empty request
list) and responds 200 with the user object exactly as `User.get` returned
it. -/
theorem C9_small_library_returned_verbatim (user : UserRec)
    (h : user.works = none ∨ user.works = some [] ∨ ∃ w, user.works = some [w]) :
    getUserHandler user = (.json 200 user, []) := by
  unfold getUserHandler
  rcases h with h | h | ⟨w, h⟩ <;> rw [h] <;> simp

/-- Witness for C9: Bob's single-entry library is returned verbatim with no
catalog request. -/
theorem C9_small_library_returned_verbatim_witness :
    getUserHandler bobSingle = (.json 200 bobSingle, []) :=
  C9_small_library_returned_verbatim bobSingle
    (Or.inr (Or.inr ⟨sampleEntryPlain, rfl⟩))

/-- C10: schema validation runs before password authentication in PATCH: a
body failing the schema is rejected with `BadRequestError` even when its
password would also fail verification, and the empty call trace shows
`User.authenticate` was never called. -/
theorem C10_validation_precedes_authentication (schemaErrors : UpdateBody → List String)
    (st : Store) (username : String) (body : UpdateBody)
    (hinvalid : schemaErrors body ≠ [])
    (_hbadpw : authenticate st username body.password = false) :
    (patchUserHandler schemaErrors st username body).1 =
      .nextErr (.badRequest (schemaErrors body)) ∧
    (patchUserHandler schemaErrors st username body).2.2 = [] := by
  unfold patchUserHandler
  cases h : schemaErrors body with
  | nil => exact absurd h hinvalid
  | cons e es => exact ⟨rfl, rfl⟩

/-- Witness for C10: a malformed body whose password "wrong" also fails
verification is rejected with `BadRequestError ["missing field"]` and
`User.authenticate` is never reached. -/
theorem C10_validation_precedes_authentication_witness :
    (patchUserHandler (fun _ => ["missing field"]) patchStore "alice" badPwBody).1 =
      .nextErr (.badRequest ["missing field"]) ∧
    (patchUserHandler (fun _ => ["missing field"]) patchStore "alice" badPwBody).2.2 = [] :=
  C10_validation_precedes_authentication (fun _ => ["missing field"]) patchStore
    "alice" badPwBody (by decide) (by decide)

end SheetMusic
